import Mathlib

/-!
Shallow embedding of the Nachos-RiscV machine simulator
(`machine/machine.cc`) and of the synchronous disk driver
(`drivers/drvDisk.cc`), together with theorems checking the
natural-language specification against this code.

Machine integers are modelled as `Int` with explicit two's-complement
wrapping (`wrap64`, `toI32`, ...); `uint64_t` casts are `Int.emod 2^64`.
The MMU, the kernel exception handler and the host floating-point unit
are external to the translated sources and appear as explicit
parameters (oracles) of the interpreter.
-/

/-- Two's-complement wrap of an integer into the `int64_t` range
`[-2^63, 2^63)`; models narrowing assignments to 64-bit signed variables. -/
def wrap64 (x : Int) : Int := (x + 2 ^ 63).emod (2 ^ 64) - 2 ^ 63

/-- Value of an integer reinterpreted as `uint64_t` (cast to unsigned). -/
def toU64 (x : Int) : Int := x.emod (2 ^ 64)

/-- Two's-complement wrap into the `int32_t` range, models `int32_t` narrowing. -/
def toI32 (x : Int) : Int := (x + 2 ^ 31).emod (2 ^ 32) - 2 ^ 31

/-- Two's-complement wrap into the `int16_t` range, models `int16_t` narrowing. -/
def toI16 (x : Int) : Int := (x + 2 ^ 15).emod (2 ^ 16) - 2 ^ 15

/-- Two's-complement wrap into the `int8_t` range, models `int8_t` narrowing. -/
def toI8 (x : Int) : Int := (x + 2 ^ 7).emod (2 ^ 8) - 2 ^ 7

/-- Sign extension of a raw 12-bit immediate field (I and S forms). -/
def sext12 (n : Nat) : Int := if n < 2 ^ 11 then (n : Int) else (n : Int) - 2 ^ 12

/-- Sign extension of a raw 13-bit branch offset (B form, bit 0 = 0). -/
def sext13 (n : Nat) : Int := if n < 2 ^ 12 then (n : Int) else (n : Int) - 2 ^ 13

/-- Sign extension of a raw 21-bit jump offset (J form, bit 0 = 0). -/
def sext21 (n : Nat) : Int := if n < 2 ^ 20 then (n : Int) else (n : Int) - 2 ^ 21

/-- Sign extension of a raw 32-bit value (U form result, `int32_t` view). -/
def sext32 (n : Nat) : Int := if n < 2 ^ 31 then (n : Int) else (n : Int) - 2 ^ 32

/-- Arithmetic right shift on mathematical integers: floor division by `2^n`,
which is what `>>` performs on negative signed values on this platform. -/
def ashr (x : Int) (n : Nat) : Int := (x - x.emod (2 ^ n)) / 2 ^ n

/-- Natural-number (bit-string) view of an `int64_t` value, used to give
two's-complement semantics to the C bitwise operators. -/
def u64bits (x : Int) : Nat := (x.emod (2 ^ 64)).toNat

/-- 64-bit two's-complement bitwise AND, models `&` on 64-bit operands. -/
def land64 (a b : Int) : Int := wrap64 (Nat.land (u64bits a) (u64bits b))

/-- 64-bit two's-complement bitwise OR, models `|` on 64-bit operands. -/
def lor64 (a b : Int) : Int := wrap64 (Nat.lor (u64bits a) (u64bits b))

/-- 64-bit two's-complement bitwise XOR, models `^` on 64-bit operands. -/
def lxor64 (a b : Int) : Int := wrap64 (Nat.xor (u64bits a) (u64bits b))

/-- The mask array computed in `Machine::Run`: `shiftMask[i]` is the all-ones
64-bit word logically shifted right by `i`. -/
def shiftMask (i : Nat) : Int := (2 ^ 64 - 1) / 2 ^ i

/-- Machine mode bit (`MachineStatus` of `machine.h`, which only the spec
describes): SYSTEM while executing handlers, USER while in user code. -/
inductive MachStatus where
  | SYSTEM_MODE
  | USER_MODE
deriving DecidableEq, Repr

/-- The visible state of the simulated RISC-V machine: the two register
files, pc, the bad-vaddr register, the mode bit, main memory and the two
statistics counters touched by `OneInstruction`. -/
structure MachState where
  int_registers : Fin 32 → Int
  float_registers : Fin 32 → Int
  pc : Int
  badvaddr_reg : Int
  status : MachStatus
  mainMemory : List Int
  n_inst : Int
  cycle : Int

/-- Write one integer register (`int_registers[r] = v`). -/
def writeReg (f : Fin 32 → Int) (r : Fin 32) (v : Int) : Fin 32 → Int :=
  fun q => if q = r then v else f q

/-- `Machine::Machine`: zero all integer and float registers, allocate a
zero-filled main memory of `NumPhysPages * PageSize` bytes, and set the
status to SYSTEM_MODE.  `pc`, `badvaddr_reg` and the statistics counters are
not initialized by the constructor and stay at their incoming values. -/
def MachineConstructor (numPhysPages pageSize : Nat)
    (pc0 badvaddr0 ninst0 cycle0 : Int) : MachState :=
  { int_registers := fun _ => 0
    float_registers := fun _ => 0
    pc := pc0
    badvaddr_reg := badvaddr0
    status := MachStatus.SYSTEM_MODE
    mainMemory := List.replicate (numPhysPages * pageSize) 0
    n_inst := ninst0
    cycle := cycle0 }

/-- Size bound used by the sanity check in `Machine::RaiseException`
(`#define EXCEPTION_NUMBER 7`). -/
def EXCEPTION_NUMBER : Nat := 7

/-- `Machine::RaiseException`: when the exception number passes the sanity
check (`which <= EXCEPTION_NUMBER`), store the bad virtual address, switch to
SYSTEM mode, call the external exception handler, and come back in USER
mode.  Otherwise the simulator halts (modelled as `none`).  The handler is
an oracle parameter since `ExceptionHandler` lives outside these sources. -/
def RaiseException (handler : MachState → MachState) (which : Nat)
    (badVAddr : Int) (s : MachState) : Option MachState :=
  if which ≤ EXCEPTION_NUMBER then
    let s1 := { s with badvaddr_reg := badVAddr }
    let s2 := { s1 with status := MachStatus.SYSTEM_MODE }
    let s3 := handler s2
    some { s3 with status := MachStatus.USER_MODE }
  else
    none

/-- Exception number used by the SYSTEM opcode (`SYSCALL_EXCEPTION`, second
entry of the exception table of `machine.cc`). -/
def SYSCALL_EXCEPTION : Nat := 1

/-- Host endianness tags of the startup check. -/
inductive Endianess where
  | IS_BIG_ENDIAN
  | IS_LITTLE_ENDIAN
deriving DecidableEq, Repr

/-- Outcome of `CheckEndian`: the value written into the global
`host_endianess` (`none` when the global is left untouched), and whether the
routine stopped the simulator. -/
structure CheckEndianResult where
  host_endianess : Option Endianess
  aborted : Bool
deriving DecidableEq, Repr

/-- `CheckEndian`: the bytes 1,2,3,4 are written into a 32-bit union and the
resulting integer (`intword`, host dependent, hence a parameter) is compared
against the two expected patterns.  The function body has no third branch:
on a mismatch it neither sets `host_endianess` nor stops. -/
def CheckEndian (intword : Nat) : CheckEndianResult :=
  if intword = 0x01020304 then
    { host_endianess := some Endianess.IS_BIG_ENDIAN, aborted := false }
  else if intword = 0x04030201 then
    { host_endianess := some Endianess.IS_LITTLE_ENDIAN, aborted := false }
  else
    { host_endianess := none, aborted := false }

/-- Major opcode families recognized by the interpreter's outer switch;
`UNKNOWN` stands for every encoding that reaches the `default` branch. -/
inductive Opcode where
  | LUI | AUIPC | JAL | JALR | BR | LD | ST | OPI | OPIW | OP | OPW
  | SYSTEM | FLW | FSW | FMADD | FMSUB | FNMSUB | FNMADD | FP | UNKNOWN
deriving DecidableEq, Repr

/-- A decoded instruction, the output of `Instruction::Decode` on the fetched
word (the decoder lives outside these sources; the interpreter is proved for
every decoded record).  Field encodings: `funct3`, `funct7` and
`funct7_smaller` are raw selector fields; register designators are 5-bit;
`shamt` is the 6-bit RV64 shift amount; immediates are stored raw
(unsigned) and sign-extended by the helpers above, `imm31_12` being the
upper-20-bit U-form payload. -/
structure Instruction where
  opcode : Opcode
  funct3 : Nat
  funct7 : Nat
  funct7_smaller : Nat
  rd : Fin 32
  rs1 : Fin 32
  rs2 : Fin 32
  rs3 : Fin 32
  shamt : Fin 64
  imm12_I : Fin 4096
  imm12_S : Fin 4096
  imm13 : Fin 8192
  imm21 : Fin 2097152
  imm31_12 : Fin 1048576
  value : Nat

/-- The sign-extended I-form immediate (`imm12_I_signed`). -/
def Instruction.imm12_I_signed (i : Instruction) : Int := sext12 i.imm12_I

/-- The sign-extended S-form immediate (`imm12_S_signed`). -/
def Instruction.imm12_S_signed (i : Instruction) : Int := sext12 i.imm12_S

/-- The sign-extended B-form immediate (`imm13_signed`). -/
def Instruction.imm13_signed (i : Instruction) : Int := sext13 i.imm13

/-- The sign-extended J-form immediate (`imm21_1_signed`). -/
def Instruction.imm21_1_signed (i : Instruction) : Int := sext21 i.imm21

/-- The already-shifted U-form immediate (`imm31_12`), sign-extended from
32 bits when read as a 64-bit value. -/
def Instruction.imm31_12val (i : Instruction) : Int := sext32 (i.imm31_12 * 2 ^ 12)

/-- Update an integer register of the state. -/
def setInt (s : MachState) (r : Fin 32) (v : Int) : MachState :=
  { s with int_registers := writeReg s.int_registers r v }

/-- Update a float register of the state. -/
def setFloat (s : MachState) (r : Fin 32) (v : Int) : MachState :=
  { s with float_registers := writeReg s.float_registers r v }

/-- Update the program counter (kept in its `uint64_t` range). -/
def setPC (s : MachState) (v : Int) : MachState :=
  { s with pc := toU64 v }

/-- Result of the big opcode switch of `Machine::OneInstruction`: the case
ran to completion, or a `return 0` was taken after a failed MMU access, or
the process exited (`exit(...)` on the unreachable/unknown encodings and on
a host integer-division trap). -/
inductive SwRes where
  | ok (s : MachState)
  | mmuFail (s : MachState)
  | abort

/-- Body of the opcode switch of `Machine::OneInstruction`, translated case
by case from `machine.cc`.  `mmuRead addr n` and `mmuWrite addr n v` are the
MMU oracles (`none`/`false` meaning the access failed and the MMU raised the
exception itself); `handler` is the kernel exception handler; `fsqrtHost`
and `fsgnHost` package the two spots that really go through host
floating-point arithmetic (FSQRT, and FSGNJ/JN/JX which round through a
`float` temporary) and are otherwise opaque to these claims. -/
def execSwitch (mmuRead : Int → Nat → Option Int)
    (mmuWrite : Int → Nat → Int → Bool)
    (handler : MachState → MachState)
    (fsqrtHost : Int → Int) (fsgnHost : Nat → Int → Int → Int)
    (i : Instruction) (s : MachState) : SwRes :=
  match i.opcode with
  | Opcode.LUI => SwRes.ok (setInt s i.rd (wrap64 i.imm31_12val))
  | Opcode.AUIPC => SwRes.ok (setInt s i.rd (wrap64 (s.pc - 4 + i.imm31_12val)))
  | Opcode.JAL =>
      SwRes.ok (setPC (setInt s i.rd (wrap64 s.pc)) (s.pc - 4 + i.imm21_1_signed))
  | Opcode.JALR =>
      -- the link value goes through the 32-bit local `localResult`;
      -- `& 0xfffffffe` keeps bits 1..31 of the target and clears the rest
      let localResult := toI32 s.pc
      let target := wrap64 (s.int_registers i.rs1 + i.imm12_I_signed)
      SwRes.ok (setInt (setPC s ((target.emod (2 ^ 32)) / 2 * 2)) i.rd localResult)
  | Opcode.BR =>
      let a := s.int_registers i.rs1
      let b := s.int_registers i.rs2
      let taken := setPC s (s.pc + i.imm13_signed - 4)
      match i.funct3 with
      | 0 => SwRes.ok (if a = b then taken else s)
      | 1 => SwRes.ok (if a ≠ b then taken else s)
      | 4 => SwRes.ok (if a < b then taken else s)
      | 5 => SwRes.ok (if a ≥ b then taken else s)
      | 6 => SwRes.ok (if toU64 a < toU64 b then taken else s)
      | 7 => SwRes.ok (if toU64 a ≥ toU64 b then taken else s)
      | _ => SwRes.abort
  | Opcode.LD =>
      let addr := toU64 (s.int_registers i.rs1 + i.imm12_I_signed)
      match i.funct3 with
      | 0 =>   -- LB
          match mmuRead addr 1 with
          | none => SwRes.mmuFail s
          | some v => SwRes.ok (setInt s i.rd (toI8 v))
      | 1 =>   -- LH
          match mmuRead addr 2 with
          | none => SwRes.mmuFail s
          | some v => SwRes.ok (setInt s i.rd (toI16 v))
      | 2 =>   -- LW
          match mmuRead addr 4 with
          | none => SwRes.mmuFail s
          | some v => SwRes.ok (setInt s i.rd (toI32 v))
      | 3 =>   -- LD
          match mmuRead addr 8 with
          | none => SwRes.mmuFail s
          | some v => SwRes.ok (setInt s i.rd (wrap64 v))
      | 4 =>   -- LBU
          match mmuRead addr 1 with
          | none => SwRes.mmuFail s
          | some v => SwRes.ok (setInt s i.rd (v.emod (2 ^ 8)))
      | 5 =>   -- LHU: 2 bytes are read into the one-byte local `v`, so only
               -- the low byte of the halfword reaches the register
          match mmuRead addr 2 with
          | none => SwRes.mmuFail s
          | some v => SwRes.ok (setInt s i.rd (v.emod (2 ^ 8)))
      | 6 =>   -- LWU: 4 bytes land in the low half of the 8-byte register,
               -- the high half keeps its previous content
          match mmuRead addr 4 with
          | none => SwRes.mmuFail s
          | some v =>
              let old := toU64 (s.int_registers i.rd)
              SwRes.ok (setInt s i.rd (wrap64 (old / 2 ^ 32 * 2 ^ 32 + v.emod (2 ^ 32))))
      | _ => SwRes.abort
  | Opcode.ST =>
      let addr := toU64 (s.int_registers i.rs1 + i.imm12_S_signed)
      let v := toU64 (s.int_registers i.rs2)
      match i.funct3 with
      | 0 => if mmuWrite addr 1 v then SwRes.ok s else SwRes.mmuFail s
      | 1 => if mmuWrite addr 2 v then SwRes.ok s else SwRes.mmuFail s
      | 2 => if mmuWrite addr 4 v then SwRes.ok s else SwRes.mmuFail s
      | 3 => if mmuWrite addr 8 v then SwRes.ok s else SwRes.mmuFail s
      | _ => SwRes.abort
  | Opcode.OPI =>
      let a := s.int_registers i.rs1
      match i.funct3 with
      | 0 => SwRes.ok (setInt s i.rd (wrap64 (a + i.imm12_I_signed)))       -- ADDI
      | 2 => SwRes.ok (setInt s i.rd (if a < i.imm12_I_signed then 1 else 0))  -- SLTI
      | 3 =>   -- SLTIU: only `rs1 & 0xffffffff` takes part in the comparison
          SwRes.ok (setInt s i.rd (if a.emod (2 ^ 32) < (i.imm12_I : Int) then 1 else 0))
      | 4 => SwRes.ok (setInt s i.rd (lxor64 a i.imm12_I_signed))           -- XORI
      | 6 => SwRes.ok (setInt s i.rd (lor64 a i.imm12_I_signed))            -- ORI
      | 7 => SwRes.ok (setInt s i.rd (land64 a i.imm12_I_signed))           -- ANDI
      | 1 => SwRes.ok (setInt s i.rd (wrap64 (a * 2 ^ (i.shamt : Nat))))    -- SLLI
      | 5 =>
          if i.funct7_smaller = 0 then   -- SRLI
            SwRes.ok (setInt s i.rd (land64 (ashr a i.shamt) (shiftMask i.shamt)))
          else   -- SRAI
            SwRes.ok (setInt s i.rd (ashr a i.shamt))
      | _ => SwRes.abort
  | Opcode.OPIW =>
      let localDataa := toI32 (s.int_registers i.rs1)
      match i.funct3 with
      | 0 => SwRes.ok (setInt s i.rd (toI32 (localDataa + i.imm12_I_signed)))  -- ADDIW
      | 1 => SwRes.ok (setInt s i.rd (toI32 (localDataa * 2 ^ (i.rs2 : Nat)))) -- SLLIW
      | 5 =>
          if i.funct7 = 0 then   -- SRLIW
            SwRes.ok (setInt s i.rd
              (toI32 (land64 (ashr localDataa i.rs2) (shiftMask (32 + (i.rs2 : Nat))))))
          else   -- SRAIW
            SwRes.ok (setInt s i.rd (ashr localDataa i.rs2))
      | _ => SwRes.abort
  | Opcode.OP =>
      let a := s.int_registers i.rs1
      let b := s.int_registers i.rs2
      if i.funct7 = 1 then
        -- RV64M: note the products are formed in 64 bits and only then
        -- widened to the 128-bit `longResult`
        match i.funct3 with
        | 0 =>   -- MUL
            let longResult := wrap64 (a * b)
            SwRes.ok (setInt s i.rd (wrap64 (longResult.emod (2 ^ 64))))
        | 1 =>   -- MULH
            let longResult := wrap64 (a * b)
            SwRes.ok (setInt s i.rd (wrap64 ((ashr longResult 64).emod (2 ^ 64))))
        | 2 =>   -- MULHSU: `int64_t * uint64_t` multiplies as uint64
            let longResult := (toU64 a * toU64 b).emod (2 ^ 64)
            SwRes.ok (setInt s i.rd (wrap64 ((ashr longResult 64).emod (2 ^ 64))))
        | 3 =>   -- MULHU
            let longResult := (toU64 a * toU64 b).emod (2 ^ 64)
            SwRes.ok (setInt s i.rd (wrap64 ((ashr longResult 64).emod (2 ^ 64))))
        | 4 =>   -- DIV: the host traps on division by zero and on MIN/-1
            if b = 0 ∨ (a = -(2 ^ 63) ∧ b = -1) then SwRes.abort
            else SwRes.ok (setInt s i.rd (Int.tdiv a b))
        | 5 =>   -- DIVU
            if toU64 b = 0 then SwRes.abort
            else SwRes.ok (setInt s i.rd (wrap64 (Int.tdiv (toU64 a) (toU64 b))))
        | 6 =>   -- REM
            if b = 0 ∨ (a = -(2 ^ 63) ∧ b = -1) then SwRes.abort
            else SwRes.ok (setInt s i.rd (Int.tmod a b))
        | 7 =>   -- REMU
            if toU64 b = 0 then SwRes.abort
            else SwRes.ok (setInt s i.rd (wrap64 (Int.tmod (toU64 a) (toU64 b))))
        | _ => SwRes.ok s   -- 3-bit field: no matching case means fall through
      else
        match i.funct3 with
        | 0 =>
            if i.funct7 = 0 then SwRes.ok (setInt s i.rd (wrap64 (a + b)))  -- ADD
            else SwRes.ok (setInt s i.rd (wrap64 (a - b)))                  -- SUB
        | 1 =>   -- SLL, count is `rs2 & 0x3f`
            let sh := ((toU64 b).emod 64).toNat
            SwRes.ok (setInt s i.rd (wrap64 (a * 2 ^ sh)))
        | 2 => SwRes.ok (setInt s i.rd (if a < b then 1 else 0))            -- SLT
        | 3 => SwRes.ok (setInt s i.rd (if toU64 a < toU64 b then 1 else 0)) -- SLTU
        | 4 => SwRes.ok (setInt s i.rd (lxor64 a b))                        -- XOR
        | 5 =>
            let sh := ((toU64 b).emod 64).toNat
            if i.funct7 = 0 then   -- SRL
              SwRes.ok (setInt s i.rd (land64 (ashr a sh) (shiftMask sh)))
            else   -- SRA
              SwRes.ok (setInt s i.rd (ashr a sh))
        | 6 => SwRes.ok (setInt s i.rd (lor64 a b))                         -- OR
        | 7 => SwRes.ok (setInt s i.rd (land64 a b))                        -- AND
        | _ => SwRes.abort
  | Opcode.OPW =>
      let a := s.int_registers i.rs1
      let b := s.int_registers i.rs2
      if i.funct7 = 1 then
        let localDataa := toI32 a
        let localDatab := toI32 b
        let localDataaUnsigned := a.emod (2 ^ 32)
        let localDatabUnsigned := b.emod (2 ^ 32)
        match i.funct3 with
        | 0 =>   -- MULW: 32-bit product, then `& 0xffffffff` zero-extends it
            let localLongResult := toI32 (localDataa * localDatab)
            SwRes.ok (setInt s i.rd (localLongResult.emod (2 ^ 32)))
        | 4 =>   -- DIVW
            if localDatab = 0 ∨ (localDataa = -(2 ^ 31) ∧ localDatab = -1) then SwRes.abort
            else SwRes.ok (setInt s i.rd (Int.tdiv localDataa localDatab))
        | 5 =>   -- DIVUW
            if localDatabUnsigned = 0 then SwRes.abort
            else SwRes.ok (setInt s i.rd (Int.tdiv localDataaUnsigned localDatabUnsigned))
        | 6 =>   -- REMW
            if localDatab = 0 ∨ (localDataa = -(2 ^ 31) ∧ localDatab = -1) then SwRes.abort
            else SwRes.ok (setInt s i.rd (Int.tmod localDataa localDatab))
        | 7 =>   -- REMUW
            if localDatabUnsigned = 0 then SwRes.abort
            else SwRes.ok (setInt s i.rd (Int.tmod localDataaUnsigned localDatabUnsigned))
        | _ => SwRes.ok s   -- funct3 1,2,3: no case in the switch, nothing happens
      else
        let localDataa := toI32 a
        let localDatab := toI32 b
        match i.funct3 with
        | 0 =>
            if i.funct7 = 0 then SwRes.ok (setInt s i.rd (toI32 (localDataa + localDatab)))
            else SwRes.ok (setInt s i.rd (toI32 (localDataa - localDatab)))
        | 1 =>   -- SLLW, count `& 0x1f`
            let sh := (localDatab.emod 32).toNat
            SwRes.ok (setInt s i.rd (toI32 (localDataa * 2 ^ sh)))
        | 5 =>
            -- the `& 0x1f` on the count is commented out in the source, so a
            -- count outside 0..31 is undefined C; modelled with the host's
            -- 5-bit masking of 32-bit shift counts
            let sh := (localDatab.emod 32).toNat
            if i.funct7 = 0 then   -- SRLW
              SwRes.ok (setInt s i.rd (toI32 (land64 (ashr localDataa sh) (shiftMask (32 + sh)))))
            else   -- SRAW
              SwRes.ok (setInt s i.rd (ashr localDataa sh))
        | _ => SwRes.abort
  | Opcode.SYSTEM =>
      match RaiseException handler SYSCALL_EXCEPTION s.pc s with
      | some s2 => SwRes.ok s2
      | none => SwRes.abort
  | Opcode.FLW =>
      match mmuRead (toU64 (s.int_registers i.rs1 + i.imm12_I_signed)) 4 with
      | none => SwRes.mmuFail s
      | some v => SwRes.ok (setFloat s i.rd (v.emod (2 ^ 32)))
  | Opcode.FSW =>
      -- the address is cast to `uint32_t` before the write
      let addr := (s.int_registers i.rs1 + i.imm12_S_signed).emod (2 ^ 32)
      if mmuWrite addr 4 (toU64 (s.float_registers i.rs2)) then SwRes.ok s
      else SwRes.mmuFail s
  | Opcode.FMADD =>
      SwRes.ok (setFloat s i.rd (wrap64
        (s.float_registers i.rs1 * s.float_registers i.rs2 + s.float_registers i.rs3)))
  | Opcode.FMSUB =>
      SwRes.ok (setFloat s i.rd (wrap64
        (s.float_registers i.rs1 * s.float_registers i.rs2 - s.float_registers i.rs3)))
  | Opcode.FNMSUB =>
      SwRes.ok (setFloat s i.rd (wrap64
        (-(s.float_registers i.rs1 * s.float_registers i.rs2) + s.float_registers i.rs3)))
  | Opcode.FNMADD =>
      SwRes.ok (setFloat s i.rd (wrap64
        (-(s.float_registers i.rs1 * s.float_registers i.rs2) - s.float_registers i.rs3)))
  | Opcode.FP =>
      let f1 := s.float_registers i.rs1
      let f2 := s.float_registers i.rs2
      match i.funct7 with
      | 0 => SwRes.ok (setFloat s i.rd (wrap64 (f1 + f2)))     -- FADD
      | 4 => SwRes.ok (setFloat s i.rd (wrap64 (f1 - f2)))     -- FSUB
      | 8 => SwRes.ok (setFloat s i.rd (wrap64 (f1 * f2)))     -- FMUL
      | 12 =>   -- FDIV performed with integer division on the raw registers
          if f2 = 0 ∨ (f1 = -(2 ^ 63) ∧ f2 = -1) then SwRes.abort
          else SwRes.ok (setFloat s i.rd (Int.tdiv f1 f2))
      | 44 => SwRes.ok (setFloat s i.rd (fsqrtHost f1))        -- FSQRT
      | 16 => SwRes.ok (setFloat s i.rd (fsgnHost i.funct3 f1 f2))  -- FSGNJ/JN/JX
      | 20 =>   -- FMIN/FMAX
          if i.funct3 = 0 then SwRes.ok (setFloat s i.rd (min f1 f2))
          else SwRes.ok (setFloat s i.rd (max f1 f2))
      | 96 =>   -- FCVT.W
          if (i.rs2 : Nat) = 0 then SwRes.ok (setInt s i.rd f1)
          else SwRes.ok (setInt s i.rd (f1.emod (2 ^ 32)))
      | 112 =>   -- FMV.X / FCLASS
          if i.funct3 = 0 then SwRes.ok (setInt s i.rd f1)
          else SwRes.abort
      | 80 =>   -- FEQ/FLT/FLE on raw register values
          if i.funct3 = 2 then SwRes.ok (setInt s i.rd (if f1 = f2 then 1 else 0))
          else if i.funct3 = 1 then SwRes.ok (setInt s i.rd (if f1 < f2 then 1 else 0))
          else SwRes.ok (setInt s i.rd (if f1 ≤ f2 then 1 else 0))
      | 104 =>   -- FCVT.S
          if (i.rs2 : Nat) = 0 then SwRes.ok (setFloat s i.rd (s.int_registers i.rs1))
          else SwRes.ok (setFloat s i.rd ((s.int_registers i.rs1).emod (2 ^ 32)))
      | 120 => SwRes.ok (setFloat s i.rd (s.int_registers i.rs1))  -- FMV.W
      | _ => SwRes.abort
  | Opcode.UNKNOWN => SwRes.abort

/-- Result of `Machine::OneInstruction`: a completed instruction together
with the returned cycle count, an early `return 0` after an MMU failure, or
a process abort via `exit`. -/
inductive OIResult where
  | ok (cycles : Nat) (s : MachState)
  | mmuFail (s : MachState)
  | abort

/-- Modelled from the spec: `USER_TICK`, the fixed execution time charged
for every user instruction, defined in `stats.h` which is not among these
sources.  Only its being a fixed nonzero constant matters here. -/
def USER_TICK : Nat := 1

/-- `Machine::OneInstruction`: fetch the instruction word at `pc` (4-byte
MMU read; on failure return 0 immediately), set the constant execution
time, advance `pc`, run the opcode switch, and on completion force integer
register 0 back to zero and bump the statistics counters before returning
`USER_TICK`.  `i` is the decode of the fetched word. -/
def OneInstruction (mmuRead : Int → Nat → Option Int)
    (mmuWrite : Int → Nat → Int → Bool)
    (handler : MachState → MachState)
    (fsqrtHost : Int → Int) (fsgnHost : Nat → Int → Int → Int)
    (i : Instruction) (s : MachState) : OIResult :=
  match mmuRead s.pc 4 with
  | none => OIResult.mmuFail s
  | some _ =>
      let s1 := { s with pc := toU64 (s.pc + 4) }
      match execSwitch mmuRead mmuWrite handler fsqrtHost fsgnHost i s1 with
      | SwRes.abort => OIResult.abort
      | SwRes.mmuFail s2 => OIResult.mmuFail s2
      | SwRes.ok s2 =>
          OIResult.ok USER_TICK
            { s2 with
              int_registers := writeReg s2.int_registers 0 0
              n_inst := s2.n_inst + 1
              cycle := s2.cycle + 1 }

/-- The `int` value `Machine::OneInstruction` hands back to `Machine::Run`
(`none` when the process exited instead of returning). -/
def OIret : OIResult → Option Nat
  | OIResult.ok c _ => some c
  | OIResult.mmuFail _ => some 0
  | OIResult.abort => none

/-- The destination register of a completed execution, for concrete runs. -/
def regOfResult (r : OIResult) (k : Fin 32) : Option Int :=
  match r with
  | OIResult.ok _ s => some (s.int_registers k)
  | _ => none

/-- One operation of the synchronous disk driver code: the statements of
`DriverDisk::ReadSector` / `WriteSector` (lock acquire, asynchronous
request to the `Disk`, semaphore P, lock release). -/
inductive DrvOp where
  | acquire
  | request (writing : Bool) (sector : Nat)
  | p
  | release
deriving DecidableEq, Repr

/-- The statement sequence of `DriverDisk::ReadSector(sector, data)`. -/
def readSectorCode (sector : Nat) : List DrvOp :=
  [DrvOp.acquire, DrvOp.request false sector, DrvOp.p, DrvOp.release]

/-- The statement sequence of `DriverDisk::WriteSector(sector, data)`. -/
def writeSectorCode (sector : Nat) : List DrvOp :=
  [DrvOp.acquire, DrvOp.request true sector, DrvOp.p, DrvOp.release]

/-- Joint state of the driver's semaphore and lock, of the disk device, and
of the one driver thread executing a sector operation (`rest` is what the
thread still has to run). -/
structure DrvState where
  semCount : Int
  blocked : Bool
  lockHeld : Bool
  outstanding : Nat
  issuedUnderLock : Bool
  rest : List DrvOp
deriving DecidableEq, Repr

/-- `DriverDisk::DriverDisk` paired with a thread about to run `code`: the
constructor creates the semaphore with initial value 0 and a free lock. -/
def driverDiskInit (code : List DrvOp) : DrvState :=
  { semCount := 0, blocked := false, lockHeld := false, outstanding := 0
    issuedUnderLock := true, rest := code }

/-- Modelled from the spec: one step of the driver thread.  `Semaphore::P`
and `Lock::Acquire`/`Release` are kernel primitives absent from these
sources; their semantics follows spec section 4.4 (P decrements the counter
and blocks the thread when the new value is negative; the single driver
thread takes the free lock or would block).  A blocked thread makes no
progress. -/
def threadStep (s : DrvState) : DrvState :=
  if s.blocked then s
  else
    match s.rest with
    | [] => s
    | DrvOp.acquire :: r =>
        if s.lockHeld then s else { s with lockHeld := true, rest := r }
    | DrvOp.request _ _ :: r =>
        { s with outstanding := s.outstanding + 1
                 issuedUnderLock := s.issuedUnderLock && s.lockHeld
                 rest := r }
    | DrvOp.p :: r =>
        if s.semCount - 1 < 0 then
          { s with semCount := s.semCount - 1, blocked := true, rest := r }
        else { s with semCount := s.semCount - 1, rest := r }
    | DrvOp.release :: r => { s with lockHeld := false, rest := r }

/-- Modelled from the spec: the disk-completion interrupt.  The device can
complete only an outstanding request; `DriverDisk::RequestDone` then does
`semaphore->V()` (increment, wake the waiter if one is queued, spec
section 4.4). -/
def irqStep (s : DrvState) : DrvState :=
  if s.outstanding = 0 then s
  else { s with outstanding := s.outstanding - 1
                semCount := s.semCount + 1
                blocked := false }

/-- Run a schedule: `true` entries are completion interrupts, `false`
entries are driver-thread steps. -/
def drvExec : List Bool → DrvState → DrvState
  | [], s => s
  | b :: rest, s => drvExec rest (if b then irqStep s else threadStep s)

/-- Reachability invariant for a driver thread running one of the two
sector operations: `rest` is a suffix of the code, the requests were all
issued under the lock, and the lock is held exactly strictly between the
`Acquire` and the `Release`. -/
def drvInv (code : List DrvOp) (s : DrvState) : Prop :=
  s.issuedUnderLock = true ∧
  ((s.rest = code ∧ s.lockHeld = false) ∨
   (s.rest = code.drop 1 ∧ s.lockHeld = true) ∨
   (s.rest = code.drop 2 ∧ s.lockHeld = true) ∨
   (s.rest = code.drop 3 ∧ s.lockHeld = true) ∨
   (s.rest = [] ∧ s.lockHeld = false))

/-- MMU oracle whose reads all succeed with value 0. -/
def mmuReadZero : Int → Nat → Option Int := fun _ _ => some 0

/-- MMU oracle whose reads all fail. -/
def mmuReadFail : Int → Nat → Option Int := fun _ _ => none

/-- MMU oracle whose writes all succeed. -/
def mmuWriteOk : Int → Nat → Int → Bool := fun _ _ _ => true

/-- Trivial host float-operation oracle. -/
def hostZero : Int → Int := fun _ => 0

/-- Trivial host sign-manipulation oracle. -/
def fsgnZero : Nat → Int → Int → Int := fun _ _ _ => 0

/-- A neutral decoded instruction; concrete tests override the fields they
exercise.  Destination register 3, sources 1 and 2. -/
def baseInstr : Instruction :=
  { opcode := Opcode.UNKNOWN, funct3 := 0, funct7 := 0, funct7_smaller := 0
    rd := 3, rs1 := 1, rs2 := 2, rs3 := 0, shamt := 0
    imm12_I := 0, imm12_S := 0, imm13 := 0, imm21 := 0, imm31_12 := 0
    value := 0 }

/-- An all-zero user-mode machine state. -/
def zeroState : MachState :=
  { int_registers := fun _ => 0, float_registers := fun _ => 0
    pc := 0, badvaddr_reg := 0, status := MachStatus.USER_MODE
    mainMemory := [], n_inst := 0, cycle := 0 }

/-- `zeroState` with source registers 1 and 2 holding `a` and `b`. -/
def stateR12 (a b : Int) : MachState :=
  { zeroState with
    int_registers := writeReg (writeReg zeroState.int_registers 1 a) 2 b }

/-- C1: after `Machine::OneInstruction` completes an instruction (any
opcode, any destination, any oracle behaviour), integer register 0 of the
returned state reads as 0, because the interpreter's common epilogue
forces `int_registers[0] = 0`. -/
theorem oneInstruction_reg0_zero
    (mmuRead : Int → Nat → Option Int) (mmuWrite : Int → Nat → Int → Bool)
    (handler : MachState → MachState)
    (fsqrtHost : Int → Int) (fsgnHost : Nat → Int → Int → Int)
    (i : Instruction) (s : MachState) (c : Nat) (s' : MachState)
    (h : OneInstruction mmuRead mmuWrite handler fsqrtHost fsgnHost i s =
      OIResult.ok c s') :
    s'.int_registers 0 = 0 := by
  unfold OneInstruction at h
  split at h
  · exact absurd h (by simp)
  · dsimp only at h
    split at h
    · exact absurd h (by simp)
    · exact absurd h (by simp)
    · injection h with h1 h2
      subst h2
      simp [writeReg]

/-- C1 witness: a concrete completed instruction (the OP-W fall-through
encoding) on the all-zero state leaves register 0 at 0. -/
theorem oneInstruction_reg0_zero_witness :
    ({ int_registers := writeReg (fun _ => 0) 0 0
       float_registers := fun _ => 0
       pc := 4, badvaddr_reg := 0, status := MachStatus.USER_MODE
       mainMemory := [], n_inst := 1, cycle := 1 } : MachState).int_registers 0 = 0 :=
  oneInstruction_reg0_zero mmuReadZero mmuWriteOk id hostZero fsgnZero
    { baseInstr with opcode := Opcode.OPW, funct7 := 1, funct3 := 1 }
    zeroState USER_TICK _ (by rfl)

/-- C6: `Machine::OneInstruction` returns exactly `USER_TICK` cycles for
every instruction that runs to completion; when the instruction fetch
fails it returns 0 at once with the state untouched; and every early
MMU-failure return carries the value 0. -/
theorem oneInstruction_cycles
    (mmuRead : Int → Nat → Option Int) (mmuWrite : Int → Nat → Int → Bool)
    (handler : MachState → MachState)
    (fsqrtHost : Int → Int) (fsgnHost : Nat → Int → Int → Int)
    (i : Instruction) (s : MachState) :
    (∀ c s', OneInstruction mmuRead mmuWrite handler fsqrtHost fsgnHost i s =
        OIResult.ok c s' → c = USER_TICK) ∧
    (mmuRead s.pc 4 = none →
      OneInstruction mmuRead mmuWrite handler fsqrtHost fsgnHost i s =
        OIResult.mmuFail s) ∧
    (∀ s', OneInstruction mmuRead mmuWrite handler fsqrtHost fsgnHost i s =
        OIResult.mmuFail s' →
      OIret (OneInstruction mmuRead mmuWrite handler fsqrtHost fsgnHost i s) =
        some 0) := by
  refine ⟨?_, ?_, ?_⟩
  · intro c s' h
    unfold OneInstruction at h
    split at h
    · exact absurd h (by simp)
    · dsimp only at h
      split at h
      · exact absurd h (by simp)
      · exact absurd h (by simp)
      · injection h with h1 h2
        exact h1.symm
  · intro hn
    unfold OneInstruction
    rw [hn]
  · intro s' h
    rw [h]
    rfl

/-- C6 witness: with an MMU that refuses the fetch, `OneInstruction`
returns the untouched state through the 0-cycle path. -/
theorem oneInstruction_cycles_witness :
    OneInstruction mmuReadFail mmuWriteOk id hostZero fsgnZero baseInstr
      zeroState = OIResult.mmuFail zeroState :=
  (oneInstruction_cycles mmuReadFail mmuWriteOk id hostZero fsgnZero baseInstr
    zeroState).2.1 rfl

/-- C7: for every exception number passing the sanity check
(`which <= EXCEPTION_NUMBER`, numerically at most 7),
`Machine::RaiseException` hands the external handler a state already in
SYSTEM mode with `badvaddr_reg` holding the bad virtual address, and
whatever the handler does, the returned state is back in USER mode. -/
theorem raiseException_modes (handler : MachState → MachState) (which : Nat)
    (badVAddr : Int) (s : MachState) (h : which ≤ EXCEPTION_NUMBER) :
    ({ s with badvaddr_reg := badVAddr, status := MachStatus.SYSTEM_MODE } :
        MachState).status = MachStatus.SYSTEM_MODE ∧
    ({ s with badvaddr_reg := badVAddr, status := MachStatus.SYSTEM_MODE } :
        MachState).badvaddr_reg = badVAddr ∧
    RaiseException handler which badVAddr s =
      some { handler { s with badvaddr_reg := badVAddr,
                              status := MachStatus.SYSTEM_MODE } with
             status := MachStatus.USER_MODE } ∧
    ∀ s', RaiseException handler which badVAddr s = some s' →
      s'.status = MachStatus.USER_MODE := by
  refine ⟨rfl, rfl, ?_, ?_⟩
  · unfold RaiseException
    rw [if_pos h]
  · intro s' h'
    unfold RaiseException at h'
    rw [if_pos h] at h'
    injection h' with h2
    subst h2
    rfl

/-- C7 witness: raising the syscall exception (number 1) around an
identity handler yields the USER-mode state with the bad address stored. -/
theorem raiseException_modes_witness :
    RaiseException id 1 5 zeroState =
      some { id { zeroState with badvaddr_reg := 5,
                                 status := MachStatus.SYSTEM_MODE } with
             status := MachStatus.USER_MODE } :=
  (raiseException_modes id 1 5 zeroState (by decide)).2.2.1

/-- C10: after the `Machine::Machine` constructor, all 32 integer and all
32 float registers are 0, the main memory holds `NumPhysPages * PageSize`
bytes all equal to 0, and the machine status is SYSTEM_MODE. -/
theorem machineConstructor_zeroed (npp ps : Nat) (pc0 bv n0 c0 : Int) :
    (∀ r : Fin 32, (MachineConstructor npp ps pc0 bv n0 c0).int_registers r = 0) ∧
    (∀ r : Fin 32, (MachineConstructor npp ps pc0 bv n0 c0).float_registers r = 0) ∧
    (MachineConstructor npp ps pc0 bv n0 c0).mainMemory.length = npp * ps ∧
    (∀ x ∈ (MachineConstructor npp ps pc0 bv n0 c0).mainMemory, x = 0) ∧
    (MachineConstructor npp ps pc0 bv n0 c0).status = MachStatus.SYSTEM_MODE := by
  refine ⟨fun r => rfl, fun r => rfl, ?_, ?_, rfl⟩
  · simp [MachineConstructor]
  · intro x hx
    simp only [MachineConstructor] at hx
    exact List.eq_of_mem_replicate hx

/-- C10 witness: a concrete 4-page machine has register 5 zero, its 32nd
memory byte zero, and SYSTEM mode. -/
theorem machineConstructor_zeroed_witness :
    (MachineConstructor 4 8 7 7 7 7).int_registers 5 = 0 ∧
    (MachineConstructor 4 8 7 7 7 7).status = MachStatus.SYSTEM_MODE :=
  ⟨(machineConstructor_zeroed 4 8 7 7 7 7).1 5,
   (machineConstructor_zeroed 4 8 7 7 7 7).2.2.2.2⟩

/-- C2: MULH (opcode OP, funct7 = 1, funct3 = 1) on
`rs1 = INT64_MIN, rs2 = -1` writes -1 to the destination, not the exact
128-bit high half, which is 0: the product is formed in 64 bits and only
its sign reaches the upper half of `longResult`. -/
theorem mulh_int64min_eval :
    regOfResult (OneInstruction mmuReadZero mmuWriteOk id hostZero fsgnZero
        { baseInstr with opcode := Opcode.OP, funct7 := 1, funct3 := 1 }
        (stateR12 (-(2 ^ 63)) (-1))) 3 = some (-1) ∧
    Int.ediv ((-(2 ^ 63) : Int) * (-1)) (2 ^ 64) = 0 ∧
    (-1 : Int) ≠ 0 := by
  refine ⟨?_, by decide, by decide⟩
  rfl

/-- C3: MULW (opcode OP-W, funct7 = 1, funct3 = 0) on
`rs1 = 32768, rs2 = 65536` (32-bit product `0x80000000`, bit 31 set)
writes the zero-extended value `2^31` to the destination, whereas the
sign-extended 64-bit result mandated by the claim is `-2^31`. -/
theorem mulw_zero_extends_eval :
    regOfResult (OneInstruction mmuReadZero mmuWriteOk id hostZero fsgnZero
        { baseInstr with opcode := Opcode.OPW, funct7 := 1, funct3 := 0 }
        (stateR12 32768 65536)) 3 = some (2 ^ 31) ∧
    toI32 (32768 * 65536) = -(2 ^ 31) ∧
    ((2 ^ 31 : Int) = -(2 ^ 31)) = False := by
  refine ⟨?_, by decide, by decide⟩
  rfl

/-- MMU oracle for the LHU test: the 2-byte data read returns the halfword
`0x1234`; other reads (the 4-byte fetch) return 0. -/
def mmuReadHalf : Int → Nat → Option Int :=
  fun _ n => if n = 2 then some 0x1234 else some 0

/-- C4: LHU (opcode LD, funct3 = 5) with a successful 2-byte MMU read of
`0x1234` leaves only the low byte `0x34` in the destination register: the
halfword is read into a one-byte local, so bits 8..15 never reach `rd`. -/
theorem lhu_drops_high_byte_eval :
    regOfResult (OneInstruction mmuReadHalf mmuWriteOk id hostZero fsgnZero
        { baseInstr with opcode := Opcode.LD, funct3 := 5 }
        (stateR12 0 0)) 3 = some 0x34 ∧
    ((0x34 : Int) = 0x1234) = False := by
  refine ⟨?_, by decide⟩
  rfl

/-- C5: SLTIU (opcode OP-IMM, funct3 = 3) with `rs1 = 2^32` and
immediate 1 writes 1 (because only `rs1 & 0xffffffff = 0` is compared),
whereas the full 64-bit unsigned comparison the claim states yields 0. -/
theorem sltiu_masks_to_32_bits_eval :
    regOfResult (OneInstruction mmuReadZero mmuWriteOk id hostZero fsgnZero
        { baseInstr with opcode := Opcode.OPI, funct3 := 3, imm12_I := 1 }
        (stateR12 (2 ^ 32) 0)) 3 = some 1 ∧
    (toU64 (2 ^ 32) < (1 : Int)) = False := by
  refine ⟨?_, by decide⟩
  rfl

/-- C9: a host word matching neither expected byte pattern (for example
`0x02010403`) makes `CheckEndian` fall through: `host_endianess` is left
unset and the simulator does NOT abort, while the two expected patterns
are classified normally. -/
theorem checkEndian_mismatch_no_abort :
    CheckEndian 0x02010403 = { host_endianess := none, aborted := false } ∧
    (CheckEndian 0x02010403).aborted = false ∧
    (CheckEndian 0x01020304).host_endianess = some Endianess.IS_BIG_ENDIAN ∧
    (CheckEndian 0x04030201).host_endianess = some Endianess.IS_LITTLE_ENDIAN := by
  refine ⟨by decide, by decide, by decide, by decide⟩

/-- The lock/ordering invariant is preserved by a step of the driver
thread executing a sector operation. -/
theorem drvInv_threadStep (w : Bool) (sector : Nat) (s : DrvState)
    (h : drvInv [DrvOp.acquire, DrvOp.request w sector, DrvOp.p, DrvOp.release] s) :
    drvInv [DrvOp.acquire, DrvOp.request w sector, DrvOp.p, DrvOp.release]
      (threadStep s) := by
  obtain ⟨sem, bl, lk, out, iul, rest⟩ := s
  obtain ⟨hI, hc⟩ := h
  simp only at hI
  subst hI
  rcases hc with ⟨h1, h2⟩ | ⟨h1, h2⟩ | ⟨h1, h2⟩ | ⟨h1, h2⟩ | ⟨h1, h2⟩ <;>
    simp only at h1 h2 <;> subst h1 <;> subst h2 <;>
    cases bl <;> simp only [threadStep, drvInv] <;> simp [drvInv]
  · split <;> simp [drvInv]

/-- The lock/ordering invariant is preserved by a disk-completion
interrupt (`DriverDisk::RequestDone`). -/
theorem drvInv_irqStep (w : Bool) (sector : Nat) (s : DrvState)
    (h : drvInv [DrvOp.acquire, DrvOp.request w sector, DrvOp.p, DrvOp.release] s) :
    drvInv [DrvOp.acquire, DrvOp.request w sector, DrvOp.p, DrvOp.release]
      (irqStep s) := by
  obtain ⟨sem, bl, lk, out, iul, rest⟩ := s
  obtain ⟨hI, hc⟩ := h
  unfold irqStep
  split <;> exact ⟨hI, hc⟩

/-- The lock/ordering invariant holds after any interleaving of thread
steps and completion interrupts. -/
theorem drvInv_exec (w : Bool) (sector : Nat) (sched : List Bool) (s : DrvState)
    (h : drvInv [DrvOp.acquire, DrvOp.request w sector, DrvOp.p, DrvOp.release] s) :
    drvInv [DrvOp.acquire, DrvOp.request w sector, DrvOp.p, DrvOp.release]
      (drvExec sched s) := by
  induction sched generalizing s with
  | nil => exact h
  | cons b rest ih =>
      cases b
      · exact ih _ (drvInv_threadStep w sector s h)
      · exact ih _ (drvInv_irqStep w sector s h)

/-- C8: the `DriverDisk` constructor creates its semaphore with initial
value 0; `ReadSector` and `WriteSector` are exactly the sequence lock
acquire, asynchronous disk request, semaphore P, lock release; under every
interleaving with the completion interrupt the request is issued while the
lock is held and the lock stays held at every point strictly between the
acquire and the release; and in the canonical run the P blocks
(counter -1) until `RequestDone`'s V lets the thread release the lock. -/
theorem driverDisk_sync_io (w : Bool) (sector : Nat) (sched : List Bool) :
    (driverDiskInit (readSectorCode sector)).semCount = 0 ∧
    (driverDiskInit (writeSectorCode sector)).semCount = 0 ∧
    readSectorCode sector =
      [DrvOp.acquire, DrvOp.request false sector, DrvOp.p, DrvOp.release] ∧
    writeSectorCode sector =
      [DrvOp.acquire, DrvOp.request true sector, DrvOp.p, DrvOp.release] ∧
    (drvExec sched (driverDiskInit
        [DrvOp.acquire, DrvOp.request w sector, DrvOp.p, DrvOp.release])).issuedUnderLock
      = true ∧
    ((drvExec sched (driverDiskInit
        [DrvOp.acquire, DrvOp.request w sector, DrvOp.p, DrvOp.release])).rest ≠
        [DrvOp.acquire, DrvOp.request w sector, DrvOp.p, DrvOp.release] →
     (drvExec sched (driverDiskInit
        [DrvOp.acquire, DrvOp.request w sector, DrvOp.p, DrvOp.release])).rest ≠ [] →
     (drvExec sched (driverDiskInit
        [DrvOp.acquire, DrvOp.request w sector, DrvOp.p, DrvOp.release])).lockHeld
       = true) ∧
    drvExec [false, false, false] (driverDiskInit (readSectorCode sector)) =
      { semCount := -1, blocked := true, lockHeld := true, outstanding := 1
        issuedUnderLock := true, rest := [DrvOp.release] } ∧
    drvExec [false, false, false, true, false]
        (driverDiskInit (readSectorCode sector)) =
      { semCount := 0, blocked := false, lockHeld := false, outstanding := 0
        issuedUnderLock := true, rest := [] } := by
  have hini : drvInv [DrvOp.acquire, DrvOp.request w sector, DrvOp.p, DrvOp.release]
      (driverDiskInit [DrvOp.acquire, DrvOp.request w sector, DrvOp.p, DrvOp.release]) :=
    ⟨rfl, Or.inl ⟨rfl, rfl⟩⟩
  obtain ⟨hI, hc⟩ := drvInv_exec w sector sched _ hini
  refine ⟨rfl, rfl, rfl, rfl, hI, ?_, ?_, ?_⟩
  · intro hne hnil
    rcases hc with ⟨h1, _⟩ | ⟨_, h2⟩ | ⟨_, h2⟩ | ⟨_, h2⟩ | ⟨h1, _⟩
    · exact absurd h1 hne
    · exact h2
    · exact h2
    · exact h2
    · exact absurd h1 hnil
  · rfl
  · rfl

/-- C8 witness: after acquire and request in a concrete read of sector 0
the lock is held, by the universal interleaving theorem. -/
theorem driverDisk_sync_io_witness :
    (drvExec [false, false] (driverDiskInit
        [DrvOp.acquire, DrvOp.request false 0, DrvOp.p, DrvOp.release])).lockHeld
      = true :=
  (driverDisk_sync_io false 0 [false, false]).2.2.2.2.2.1 (by decide) (by decide)
